import Mathlib

/-!
Shallow embedding of the 3D repository (`src/packages/mesh.py` and
`src/packages/fbx.py`).  Numeric values are modelled by an arbitrary
linear ordered field `K` (instantiated at `ℚ` in concrete evaluations);
the transcendental constants of the source (`math.pi`, `sin`, `cos`,
`sqrt(2)/2`) are abstracted into a context `Ctx`, since none of the
verified claims depends on their numeric values.  Python exceptions are
modelled with `Except PyErr` / an `Option PyErr` component; methods that
mutate `self` return the updated object explicitly.
-/

namespace ThreeD

/-- Python-level runtime failures raised by the embedded code:
`assertionFailed` for a failed `assert` statement, and `typeError`,
`valueError`, `indexError` for the corresponding built-in exceptions. -/
inductive PyErr where
  | assertionFailed : PyErr
  | typeError : String → PyErr
  | valueError : String → PyErr
  | indexError : PyErr
  deriving DecidableEq, Repr

/-- Modelled from the spec: `packages/point.py` is not under `src/`.
Spec sections 3 and 4.1: a 3-component vector value type, constructible
from three numeric components, supporting component-wise addition and
component-wise multiplication; used for the `center`, `angle` and
`scale` tracking fields of a mesh. -/
structure Point (K : Type) where
  x : K
  y : K
  z : K
  deriving DecidableEq, Repr

/-- Component-wise addition of a 3-tuple, the `Point.__iadd__` used at
`self.center += shift` and `self.angle += rotation` (spec 4.1:
component-wise add). -/
def Point.addVec3 {K : Type} [Add K] (p : Point K) (v : K × K × K) : Point K :=
  ⟨p.x + v.1, p.y + v.2.1, p.z + v.2.2⟩

/-- Component-wise multiplication by a 3-tuple, the `Point.__imul__`
used at `self.scale *= [x, y, z]` (spec 4.1: vector multiply). -/
def Point.mulVec3 {K : Type} [Mul K] (p : Point K) (v : K × K × K) : Point K :=
  ⟨p.x * v.1, p.y * v.2.1, p.z * v.2.2⟩

/-- Modelled from the spec: the call `Point(*xs)` on a Python list `xs`,
as performed by the `center`/`angle`/`scale` property setters of `Mesh`.
Spec 4.1: `Point` rejects non-3-length inputs with a `TypeKind` error. -/
def pointOfList {K : Type} (xs : List K) : Except PyErr (Point K) :=
  match xs with
  | [x, y, z] => .ok ⟨x, y, z⟩
  | _ => .error (.typeError ("Point expects three components"))

/-- Abstract numeric context: the value of `math.pi`, the `sin` and
`cos` functions, and `temp = sqrt(2)/2` used in the fixed camera
matrix of `Mesh.__init__`. -/
structure Ctx (K : Type) where
  piK : K
  sinK : K → K
  cosK : K → K
  temp : K

/-- The scale argument of `Mesh._scale_matrix` / `Mesh.applyTransform`:
the Python call sites pass a `tuple`/`list`, a `float`/`int`, or a
`Point` (`tuple` and `list` behave identically in the source, as do
`float` and `int`). -/
inductive ScaleArg (K : Type) where
  | ofList : List K → ScaleArg K
  | ofNum : K → ScaleArg K
  | ofPoint : Point K → ScaleArg K
  deriving DecidableEq, Repr

section Matrices

variable {K : Type} [LinearOrderedField K]

/-- The translation matrix built by `Mesh._shift_matrix` (mesh.py 95-100). -/
def shiftMat (x y z : K) : Matrix (Fin 4) (Fin 4) K :=
  !![1, 0, 0, x;
     0, 1, 0, y;
     0, 0, 1, z;
     0, 0, 0, 1]

/-- The diagonal scale matrix built by `Mesh._scale_matrix` (mesh.py 74-79). -/
def scaleMat (x y z : K) : Matrix (Fin 4) (Fin 4) K :=
  !![x, 0, 0, 0;
     0, y, 0, 0;
     0, 0, z, 0;
     0, 0, 0, 1]

/-- The rotation matrix built by `Mesh._rotation_matrix` (mesh.py 124-129),
entry for entry, including the source's anomalous `[1][2]` entry
`c_a*s_b*s_a - s_a*c_c` (flagged by the spec as a likely transcription
defect, but preserved here because the embedding follows the code). -/
def rotMat (sinK cosK : K → K) (alfa beta gamma : K) : Matrix (Fin 4) (Fin 4) K :=
  let c_a := cosK alfa
  let c_b := cosK beta
  let c_c := cosK gamma
  let s_a := sinK alfa
  let s_b := sinK beta
  let s_c := sinK gamma
  !![c_b * c_c, s_a * s_b * c_c - c_a * s_c, c_a * s_b * c_c + s_a * s_c, 0;
     c_b * s_c, s_a * s_b * s_c + c_a * c_c, c_a * s_b * s_a - s_a * c_c, 0;
     -s_b, s_a * c_b, c_a * c_b, 0;
     0, 0, 0, 1]

/-- The fixed focal matrix of `Mesh.__init__` (mesh.py 42-46). -/
def focal : Matrix (Fin 3) (Fin 4) K :=
  !![5, 0, 0, 0;
     0, 5, 0, 0;
     0, 0, 1, 0]

/-- The fixed camera matrix of `Mesh.__init__` (mesh.py 35-40), with
`t` standing for `temp = sqrt(2)/2`. -/
def camera (t : K) : Matrix (Fin 4) (Fin 4) K :=
  !![t, t, 0, 1;
     -t, t, 0, 0;
     0, 0, 1, 0;
     0, 0, 0, 1]

/-- Closed form of `inv(self.camera)` as computed in `Mesh._to2D`
(mesh.py 140); `cameraInv_mul_camera`/`camera_mul_cameraInv` below prove
it is the two-sided inverse of `camera t` whenever `t ≠ 0`. -/
def cameraInv (t : K) : Matrix (Fin 4) (Fin 4) K :=
  !![1 / (2 * t), -(1 / (2 * t)), 0, -(1 / (2 * t));
     1 / (2 * t), 1 / (2 * t), 0, -(1 / (2 * t));
     0, 0, 1, 0;
     0, 0, 0, 1]

end Matrices

/-- The state of a `Mesh` object (mesh.py 18-51).  The Python attribute
`show` is called `showFlag` here (`show` is a Lean keyword), and
`_2DVertices` is called `twoDVertices`.  The constant `camera`/`focal`
attributes are kept as the top-level definitions above, since no code
path ever rebinds them. -/
structure Mesh (K : Type) (n : ℕ) where
  vertices : Matrix (Fin 4) (Fin n) K
  edges : List K
  center : Point K
  angle : Point K
  scale : Point K
  transform_matrix : Matrix (Fin 4) (Fin 4) K
  transform_matrix_backup : Matrix (Fin 4) (Fin 4) K
  twoDVertices : Matrix (Fin 2) (Fin n) K
  showFlag : Bool
  color : String

section MeshMethods

variable {K : Type} [LinearOrderedField K] {n : ℕ}

/-- `Mesh._to2D` (mesh.py 136-141): maps the vertices through
`focal @ inv(camera) @ transform_matrix @ vertices` and divides the
first two rows by the third (perspective divide). -/
def Mesh.to2D (m : Mesh K n) (t : K) : Matrix (Fin 2) (Fin n) K :=
  let mapped := (focal : Matrix (Fin 3) (Fin 4) K) * cameraInv t * m.transform_matrix * m.vertices
  Matrix.of fun i j => mapped i.castSucc j / mapped 2 j

/-- `Mesh._shift_matrix` (mesh.py 84-102): unpacks `x, y, z = shift`
(a `ValueError` when the list does not have exactly three items),
accumulates `self.center += shift`, and returns the translation matrix. -/
def Mesh.shift_matrix (m : Mesh K n) (shift : List K) :
    Except PyErr (Matrix (Fin 4) (Fin 4) K × Mesh K n) :=
  match shift with
  | [x, y, z] => .ok (shiftMat x y z, { m with center := m.center.addVec3 (x, y, z) })
  | _ => .error (.valueError ("cannot unpack shift"))

/-- `Mesh._rotation_matrix` (mesh.py 106-132): asserts every component
lies in `[-2*pi, 2*pi)`, unpacks the three angles, accumulates
`self.angle += rotation`, and returns the rotation matrix. -/
def Mesh.rotation_matrix (ctx : Ctx K) (m : Mesh K n) (rotation : List K) :
    Except PyErr (Matrix (Fin 4) (Fin 4) K × Mesh K n) :=
  if _h : ∀ a ∈ rotation, -(2 * ctx.piK) ≤ a ∧ a < 2 * ctx.piK then
    match rotation with
    | [alfa, beta, gamma] =>
        .ok (rotMat ctx.sinK ctx.cosK alfa beta gamma,
             { m with angle := m.angle.addVec3 (alfa, beta, gamma) })
    | _ => .error (.valueError ("cannot unpack rotation"))
  else .error .assertionFailed

/-- `Mesh._scale_matrix` (mesh.py 55-81): for a list, asserts all
components are truthy (non-zero) and then unpacks exactly three of
them; for a number, asserts it is not (almost) zero and broadcasts it;
any other type raises `TypeError("Invalid scale.")`.  On success it
accumulates `self.scale *= [x, y, z]` and returns the diagonal matrix.
(`math.isclose(s, 0)` with the default `abs_tol = 0` holds exactly for
`s = 0`, so it is embedded as equality with zero.) -/
def Mesh.scale_matrix (m : Mesh K n) (scale : ScaleArg K) :
    Except PyErr (Matrix (Fin 4) (Fin 4) K × Mesh K n) :=
  match scale with
  | .ofList xs =>
    if _h : ∀ x ∈ xs, x ≠ 0 then
      match xs with
      | [x, y, z] => .ok (scaleMat x y z, { m with scale := m.scale.mulVec3 (x, y, z) })
      | _ => .error (.valueError ("cannot unpack scale"))
    else .error .assertionFailed
  | .ofNum s =>
    if s = 0 then .error .assertionFailed
    else .ok (scaleMat s s s, { m with scale := m.scale.mulVec3 (s, s, s) })
  | .ofPoint _ => .error (.typeError ("Invalid scale."))

/-- `Mesh.applyTransform` (mesh.py 309-329): builds shift, rotation and
scale factors in that order, then commits
`transform_matrix = scale @ rotation @ shift @ transform_matrix` and
recomputes `_2DVertices`.  The returned pair is the post-call object
state together with the raised exception, if any: a failing factor
aborts before the matrix multiply, leaving `transform_matrix`
untouched (though earlier factors have already updated their tracking
fields, exactly as in Python). -/
def Mesh.applyTransform (ctx : Ctx K) (m : Mesh K n)
    (center angle : List K) (scale : ScaleArg K) : Mesh K n × Option PyErr :=
  match m.shift_matrix center with
  | .error e => (m, some e)
  | .ok (s_mat, m1) =>
    match Mesh.rotation_matrix ctx m1 angle with
    | .error e => (m1, some e)
    | .ok (r_mat, m2) =>
      match m2.scale_matrix scale with
      | .error e => (m2, some e)
      | .ok (c_mat, m3) =>
        let m4 : Mesh K n :=
          { m3 with transform_matrix := c_mat * r_mat * s_mat * m3.transform_matrix }
        ({ m4 with twoDVertices := m4.to2D ctx.temp }, none)

/-- `Mesh.reset` (mesh.py 291-293): restores `transform_matrix` from
the construction-time backup and touches nothing else. -/
def Mesh.reset (m : Mesh K n) : Mesh K n :=
  { m with transform_matrix := m.transform_matrix_backup }

end MeshMethods

section Construction

variable {K : Type} [LinearOrderedField K]

/-- Reindexes the rows of a matrix along a proof that the row count is
`r2`; used to express the shape decisions of the vertices setter
without `Eq.rec` casts. -/
def castRows {r1 r2 c : ℕ} (h : r1 = r2) (V : Matrix (Fin r1) (Fin c) K) :
    Matrix (Fin r2) (Fin c) K :=
  Matrix.of fun i j => V (Fin.cast h.symm i) j

/-- First `if` statement of the `vertices` property setter
(mesh.py 156-158): if the row count is not 4, assert the column count
is 4 and transpose. -/
def verticesStep1 {r c : ℕ} (V : Matrix (Fin r) (Fin c) K) :
    Except PyErr ((n : ℕ) × Matrix (Fin 4) (Fin n) K) :=
  if h : r = 4 then .ok ⟨c, castRows h V⟩
  else if h2 : c = 4 then .ok ⟨r, castRows h2 V.transpose⟩
  else .error .assertionFailed

/-- Second `if` statement of the `vertices` property setter
(mesh.py 160-162): if the last row is not identically 1, assert the
(current) column count is 4 and transpose again; the result is stored
without a further check. -/
def verticesStep2 (p : (n : ℕ) × Matrix (Fin 4) (Fin n) K) :
    Except PyErr ((n : ℕ) × Matrix (Fin 4) (Fin n) K) :=
  if _hone : ∀ j, p.2 3 j = 1 then .ok p
  else if h4 : p.1 = 4 then .ok ⟨4, castRows h4 p.2.transpose⟩
  else .error .assertionFailed

/-- The `vertices` property setter (mesh.py 151-164): the two shape
normalization steps in sequence. -/
def verticesSetter {r c : ℕ} (V : Matrix (Fin r) (Fin c) K) :
    Except PyErr ((n : ℕ) × Matrix (Fin 4) (Fin n) K) :=
  (verticesStep1 V).bind verticesStep2

/-- The `center`/`angle` property setters (mesh.py 180-205) restricted
to the list case used throughout this development: `Point(*values)`. -/
def centerSetter (xs : List K) : Except PyErr (Point K) := pointOfList xs

/-- The `scale` property setter (mesh.py 212-221).  Note the source's
dangling `if isinstance(scale, Point)` branch is immediately overridden
by the `elif isinstance(scale, (list, tuple, Point))` branch, whose
`Point(*scale)` copies the point, so a `Point` argument is stored
as-is; a number is broadcast; a list goes through `Point(*scale)`. -/
def scaleSetter (s : ScaleArg K) : Except PyErr (Point K) :=
  match s with
  | .ofPoint p => .ok p
  | .ofNum x => .ok ⟨x, x, x⟩
  | .ofList xs => pointOfList xs

/-- `Mesh.__init__` (mesh.py 18-51): runs the vertices, edges, center,
angle and scale setters in source order, initializes
`transform_matrix` to the identity, applies the initial placement via
`applyTransform(center, angle, scale)`, snapshots the result as
`_transform_matrix_backup`, and sets `show = True` and the color.  A
failure anywhere aborts construction with that exception. -/
def MeshInit (ctx : Ctx K) {r c : ℕ} (V : Matrix (Fin r) (Fin c) K)
    (edges : List K) (center angle : List K) (scale : ScaleArg K)
    (color : String) : Except PyErr ((n : ℕ) × Mesh K n) :=
  match verticesSetter V with
  | .error e => .error e
  | .ok ⟨n, vs⟩ =>
    match centerSetter center with
    | .error e => .error e
    | .ok cP =>
      match centerSetter angle with
      | .error e => .error e
      | .ok aP =>
        match scaleSetter scale with
        | .error e => .error e
        | .ok sP =>
          let m0 : Mesh K n :=
            { vertices := vs, edges := edges, center := cP, angle := aP, scale := sP,
              transform_matrix := 1, transform_matrix_backup := 1,
              twoDVertices := 0, showFlag := true, color := color }
          match Mesh.applyTransform ctx m0 center angle scale with
          | (_, some e) => .error e
          | (m1, none) => .ok ⟨n, { m1 with transform_matrix_backup := m1.transform_matrix }⟩

end Construction

section Fbx

variable {K : Type} [LinearOrderedField K]

/-- A property value of the parsed JSON document consumed by `readFBX`
(fbx.py): a string, a number, a flat numeric array, or a nested numeric
array (the shapes actually read by the traversal). -/
inductive JVal (K : Type) where
  | str : String → JVal K
  | num : K → JVal K
  | nums : List K → JVal K
  | numss : List (List K) → JVal K
  deriving DecidableEq, Repr

/-- A node of the parsed JSON document: `name`, ordered `children` and
the ordered `properties` values (`node['properties'][i]['value']` is
collapsed to `node.properties[i]`). -/
structure JNode (K : Type) where
  name : String
  children : List (JNode K)
  properties : List (JVal K)

/-- Python list indexing `xs[i]`, raising `IndexError` out of range. -/
def getIdx {α : Type} (xs : List α) (i : ℕ) : Except PyErr α :=
  match xs.get? i with
  | some v => .ok v
  | none => .error .indexError

/-- Python subscript `v[0]` applied to a property value (fbx.py 84):
on a string it yields the first character (as a length-1 string), on a
flat or nested list its first element, and on a number it raises
`TypeError` (ints are not subscriptable). -/
def getItem0 (v : JVal K) : Except PyErr (JVal K) :=
  match v with
  | .str s => if s.length = 0 then .error .indexError else .ok (.str (s.take 1))
  | .num _ => .error (.typeError ("number is not subscriptable"))
  | .nums xs => (getIdx xs 0).map .num
  | .numss xss => (getIdx xss 0).map .nums

/-- `numpy.asmatrix` on a nested list: a rectangular list of rows
becomes an `r × c` matrix (the traversal only ever feeds rectangular
buffers; a ragged input is mapped to an error). -/
def listToMatrix (rows : List (List K)) :
    Except PyErr ((r : ℕ) × (c : ℕ) × Matrix (Fin r) (Fin c) K) :=
  let c := (rows.headD []).length
  if rows.all (fun row => row.length = c) then
    .ok ⟨rows.length, c, Matrix.of fun i j => (rows.get i).getD j 0⟩
  else .error (.typeError ("ragged vertex buffer"))

/-- Python number at `props[i]` (the traversal reads `Lcl` channel
values at property indices 4, 5, 6, which are numeric). -/
def getNumAt (props : List (JVal K)) (i : ℕ) : Except PyErr K :=
  match getIdx props i with
  | .error e => .error e
  | .ok (.num x) => .ok x
  | .ok _ => .error (.typeError ("expected a numeric property"))

/-- The loop-carried state of the `readFBX` traversal (fbx.py 60-93):
the mesh list, the Geometry/Model pairing counter, and the pending
`center`/`angle`/`scale` placement lists. -/
structure RState (K : Type) where
  meshes : List ((n : ℕ) × Mesh K n)
  counter : ℕ
  center : List K
  angle : List K
  scale : List K

/-- One iteration of the inner `Model` loop (fbx.py 75-86): dispatch on
`v2['properties'][0]['value']`.  `Lcl Translation` reassigns `center`
from property indices 4-6; `Lcl Rotation` reassigns `angle`, converting
degrees to radians (`x * pi / 180`); otherwise, when
`value[0] == "Lcl Scaling"` — note the source subscripts the value, so
the full string `"Lcl Scaling"` never matches its own first character —
the loop appends indices 4-6 divided by 100 onto `scale`. -/
def modelChildStep (ctx : Ctx K) (st : RState K) (v2 : JNode K) :
    Except PyErr (RState K) := do
  let p0 ← getIdx v2.properties 0
  if p0 = JVal.str ("Lcl Translation") then
    let x4 ← getNumAt v2.properties 4
    let x5 ← getNumAt v2.properties 5
    let x6 ← getNumAt v2.properties 6
    return { st with center := [x4, x5, x6] }
  else if p0 = JVal.str ("Lcl Rotation") then
    let x4 ← getNumAt v2.properties 4
    let x5 ← getNumAt v2.properties 5
    let x6 ← getNumAt v2.properties 6
    return { st with angle := [x4, x5, x6].map (fun x => x * ctx.piK / 180) }
  else
    let h0 ← getItem0 p0
    if h0 = JVal.str ("Lcl Scaling") then
      let x4 ← getNumAt v2.properties 4
      let x5 ← getNumAt v2.properties 5
      let x6 ← getNumAt v2.properties 6
      return { st with scale := st.scale ++ [x4 / 100, x5 / 100, x6 / 100] }
    else
      return st

/-- The `Geometry` branch of the traversal (fbx.py 67-71): reads the
vertex buffer from the third child's first property and the edge buffer
from the fifth child's first property, constructs
`Mesh(vertices, edges, center, angle, scale)` with the current pending
placement (initially `center = angle = [0,0,0]`, `scale = []`), and
appends it. -/
def geometryStep (ctx : Ctx K) (st : RState K) (v : JNode K) :
    Except PyErr (RState K) := do
  let ch2 ← getIdx v.children 2
  let pv ← getIdx ch2.properties 0
  let rows ← (match pv with
    | JVal.numss rs => Except.ok rs
    | _ => Except.error (.typeError ("expected a nested numeric vertex buffer")))
  let ch4 ← getIdx v.children 4
  let pe ← getIdx ch4.properties 0
  let es ← (match pe with
    | JVal.nums xs => Except.ok xs
    | _ => Except.error (.typeError ("expected a numeric edge buffer")))
  let mat ← listToMatrix rows
  let mesh ← MeshInit ctx mat.2.2 es st.center st.angle (ScaleArg.ofList st.scale) "b"
  return { st with meshes := st.meshes ++ [mesh] }

/-- The `Model` branch of the traversal (fbx.py 73-93): folds the inner
loop over the second child's children, then replaces
`mesh_list[counter]` with a mesh rebuilt from its vertices and edges
and the freshly gathered placement, resets the placement defaults, and
advances the counter. -/
def modelStep (ctx : Ctx K) (st : RState K) (v : JNode K) :
    Except PyErr (RState K) := do
  let ch1 ← getIdx v.children 1
  let st2 ← ch1.children.foldlM (modelChildStep ctx) st
  let old ← getIdx st2.meshes st2.counter
  let newMesh ← MeshInit ctx old.2.vertices old.2.edges st2.center st2.angle
      (ScaleArg.ofList st2.scale) "b"
  return { st2 with meshes := st2.meshes.set st2.counter newMesh,
                    counter := st2.counter + 1,
                    center := [0, 0, 0], angle := [0, 0, 0], scale := [] }

/-- One iteration of the main traversal loop (fbx.py 66-93). -/
def readStep (ctx : Ctx K) (st : RState K) (v : JNode K) :
    Except PyErr (RState K) :=
  if v.name = "Geometry" then geometryStep ctx st v
  else if v.name = "Model" then modelStep ctx st v
  else .ok st

/-- `readFBX` (fbx.py 31-95), starting after the out-of-scope
conversion and JSON load: iterates over `data['children'][8]['children']`
with the pairing counter and the pending placement defaults, and
returns the accumulated mesh list. -/
def readFBX (ctx : Ctx K) (data : JNode K) :
    Except PyErr (List ((n : ℕ) × Mesh K n)) := do
  let objects ← getIdx data.children 8
  let fin ← objects.children.foldlM (readStep ctx) ⟨[], 0, [0, 0, 0], [0, 0, 0], []⟩
  return fin.meshes

end Fbx

section Fixtures

/-- A concrete context over `ℚ` used to instantiate hypotheses of the
universally quantified theorems: a rational stand-in for `pi` and
arbitrary total `sin`/`cos` stand-ins (no verified claim depends on
their values). -/
def ctxQ : Ctx ℚ :=
  { piK := 4, sinK := fun _ => 1 / 2, cosK := fun _ => 1 / 3, temp := 1 }

/-- A concrete two-vertex mesh over `ℚ` used to instantiate theorems. -/
def meshQ : Mesh ℚ 2 :=
  { vertices := !![0, 1; 0, 0; 0, 0; 1, 1],
    edges := [0, 1],
    center := ⟨0, 0, 0⟩, angle := ⟨0, 0, 0⟩, scale := ⟨1, 1, 1⟩,
    transform_matrix := 1, transform_matrix_backup := 1,
    twoDVertices := 0, showFlag := true, color := "b" }

/-- A nameless document node with no children and no properties. -/
def jEmpty : JNode ℚ := { name := "", children := [], properties := [] }

/-- The `Geometry` node of the end-to-end scenario of spec section 8:
vertices `[[0,0,0,1],[1,0,0,1]]` under the third child, edges `[0,1]`
under the fifth child. -/
def geomNodeQ : JNode ℚ :=
  { name := "Geometry",
    children :=
      [jEmpty, jEmpty,
       { name := "", children := [], properties := [JVal.numss [[0, 0, 0, 1], [1, 0, 0, 1]]] },
       jEmpty,
       { name := "", children := [], properties := [JVal.nums [0, 1]] }],
    properties := [] }

/-- The `Model` node of the end-to-end scenario: `Lcl Translation`
`(1,0,0)`, `Lcl Rotation` `(0,0,0)`, `Lcl Scaling` `(100,100,100)`,
each channel carrying its values at property indices 4-6. -/
def modelNodeQ : JNode ℚ :=
  { name := "Model",
    children :=
      [jEmpty,
       { name := "", properties := [],
         children :=
           [{ name := "", children := [],
              properties := [JVal.str ("Lcl Translation"), JVal.num 0, JVal.num 0,
                             JVal.num 0, JVal.num 1, JVal.num 0, JVal.num 0] },
            { name := "", children := [],
              properties := [JVal.str ("Lcl Rotation"), JVal.num 0, JVal.num 0,
                             JVal.num 0, JVal.num 0, JVal.num 0, JVal.num 0] },
            { name := "", children := [],
              properties := [JVal.str ("Lcl Scaling"), JVal.num 0, JVal.num 0,
                             JVal.num 0, JVal.num 100, JVal.num 100, JVal.num 100] }] }],
    properties := [] }

/-- The document tree of the end-to-end scenario: the object list sits
at top-level child index 8 and holds one `Geometry` node followed by
one `Model` node. -/
def c1Tree : JNode ℚ :=
  { name := "root",
    children :=
      List.replicate 8 jEmpty ++
        [{ name := "Objects", children := [geomNodeQ, modelNodeQ], properties := [] }],
    properties := [] }

/-- A 4-row homogeneous vertex buffer (last row ones) used to
instantiate theorems: it is accepted by the vertices setter unchanged. -/
def vInitQ : Matrix (Fin 4) (Fin 2) ℚ := !![0, 1; 0, 0; 0, 0; 1, 1]

/-- An `N×4` vertex buffer (`N = 2`) with an all-ones last column, which
the vertices setter transposes. -/
def vRowQ : Matrix (Fin 2) (Fin 4) ℚ := !![0, 0, 0, 1; 1, 0, 0, 1]

/-- A `4×4` buffer whose last row carries the value `2` instead of `1`
and whose last column is all ones: stored unchanged by the setter. -/
def vOnesQ : Matrix (Fin 4) (Fin 4) ℚ := !![1, 2, 3, 1; 0, 0, 0, 1; 0, 0, 0, 1; 1, 1, 1, 1]

/-- A concrete successful mesh construction used to instantiate the
construction-time theorems. -/
def initResQ : Except PyErr ((n' : ℕ) × Mesh ℚ n') :=
  MeshInit ctxQ vInitQ [] [0, 0, 0] [0, 0, 0] (ScaleArg.ofNum 1) "b"

/-- Total accessor for the tracked scale of a construction result; on a
failed construction it returns the zero point, so a non-zero component
genuinely witnesses a successful construction. -/
def scaleOf {K : Type} [Zero K] (res : Except PyErr ((n' : ℕ) × Mesh K n')) : Point K :=
  match res with
  | .ok p => p.2.scale
  | .error _ => ⟨0, 0, 0⟩

end Fixtures

section Lemmas

variable {K : Type} [LinearOrderedField K] {n : ℕ}

/-- The `x, y, z` components that `Mesh._scale_matrix` assigns from its
argument on the successful paths (mesh.py 67 and 70): a three-element
list gives its elements, a number is broadcast.  (On every other
argument `_scale_matrix` raises, so the fallback value is never
reached by a successful call.) -/
def scaleComponents {K : Type} [One K] : ScaleArg K → K × K × K
  | .ofList [x, y, z] => (x, y, z)
  | .ofNum s => (s, s, s)
  | _ => (1, 1, 1)

theorem shift_ok_elim {m m' : Mesh K n} {shift : List K} {S : Matrix (Fin 4) (Fin 4) K}
    (h : m.shift_matrix shift = .ok (S, m')) :
    ∃ x y z, shift = [x, y, z] ∧ S = shiftMat x y z ∧
      m' = { m with center := m.center.addVec3 (x, y, z) } := by
  rcases shift with _ | ⟨x, _ | ⟨y, _ | ⟨z, _ | ⟨w, t⟩⟩⟩⟩ <;>
    simp [Mesh.shift_matrix] at h
  exact ⟨x, y, z, rfl, h.1.symm, h.2.symm⟩

theorem rot_ok_elim {ctx : Ctx K} {m m' : Mesh K n} {rot : List K}
    {R : Matrix (Fin 4) (Fin 4) K}
    (h : Mesh.rotation_matrix ctx m rot = .ok (R, m')) :
    (∀ a ∈ rot, -(2 * ctx.piK) ≤ a ∧ a < 2 * ctx.piK) ∧
    ∃ a b c, rot = [a, b, c] ∧ R = rotMat ctx.sinK ctx.cosK a b c ∧
      m' = { m with angle := m.angle.addVec3 (a, b, c) } := by
  rw [Mesh.rotation_matrix] at h
  split at h
  case isTrue hall =>
    refine ⟨hall, ?_⟩
    rcases rot with _ | ⟨x, _ | ⟨y, _ | ⟨z, _ | ⟨w, t⟩⟩⟩⟩ <;> simp at h
    exact ⟨x, y, z, rfl, h.1.symm, h.2.symm⟩
  case isFalse hall => simp at h

theorem scale_ok_elim {m m' : Mesh K n} {s : ScaleArg K}
    {C : Matrix (Fin 4) (Fin 4) K}
    (h : m.scale_matrix s = .ok (C, m')) :
    ∃ x y z, scaleComponents s = (x, y, z) ∧ x ≠ 0 ∧ y ≠ 0 ∧ z ≠ 0 ∧
      C = scaleMat x y z ∧ m' = { m with scale := m.scale.mulVec3 (x, y, z) } := by
  rcases s with xs | t | p
  · rw [Mesh.scale_matrix] at h
    split at h
    case isTrue hall =>
      rcases xs with _ | ⟨x, _ | ⟨y, _ | ⟨z, _ | ⟨w, t⟩⟩⟩⟩ <;> simp at h
      refine ⟨x, y, z, rfl, ?_, ?_, ?_, h.1.symm, h.2.symm⟩ <;>
        simp_all [scaleComponents]
    case isFalse hall => simp at h
  · rw [Mesh.scale_matrix] at h
    split at h
    case isTrue ht => simp at h
    case isFalse ht =>
      simp at h
      exact ⟨t, t, t, rfl, ht, ht, ht, h.1.symm, h.2.symm⟩
  · simp [Mesh.scale_matrix] at h

theorem applyTransform_fields (ctx : Ctx K) (m : Mesh K n)
    (center angle : List K) (scale : ScaleArg K) :
    (Mesh.applyTransform ctx m center angle scale).1.vertices = m.vertices ∧
    (Mesh.applyTransform ctx m center angle scale).1.edges = m.edges ∧
    (Mesh.applyTransform ctx m center angle scale).1.transform_matrix_backup
      = m.transform_matrix_backup ∧
    (Mesh.applyTransform ctx m center angle scale).1.showFlag = m.showFlag ∧
    (Mesh.applyTransform ctx m center angle scale).1.color = m.color := by
  cases hc : m.shift_matrix center with
  | error e => simp [Mesh.applyTransform, hc]
  | ok p =>
    obtain ⟨S, m1⟩ := p
    obtain ⟨x, y, z, -, -, rfl⟩ := shift_ok_elim hc
    cases hr : Mesh.rotation_matrix ctx { m with center := m.center.addVec3 (x, y, z) } angle with
    | error e => simp [Mesh.applyTransform, hc, hr]
    | ok q =>
      obtain ⟨R, m2⟩ := q
      obtain ⟨-, a, b, c, -, -, rfl⟩ := rot_ok_elim hr
      cases hs : Mesh.scale_matrix
          { m with center := m.center.addVec3 (x, y, z),
                   angle := m.angle.addVec3 (a, b, c) } scale with
      | error e => simp [Mesh.applyTransform, hc, hr, hs]
      | ok w =>
        obtain ⟨C, m3⟩ := w
        obtain ⟨sx, sy, sz, -, -, -, -, -, rfl⟩ := scale_ok_elim hs
        simp [Mesh.applyTransform, hc, hr, hs]

theorem castRows_rfl {c : ℕ} (h : (4 : ℕ) = 4) (V : Matrix (Fin 4) (Fin c) K) :
    castRows h V = V := rfl

theorem pointOfList_ok_elim {xs : List K} {pt : Point K}
    (h : pointOfList xs = .ok pt) : xs = [pt.x, pt.y, pt.z] := by
  rcases xs with _ | ⟨x, _ | ⟨y, _ | ⟨z, _ | ⟨w, t⟩⟩⟩⟩ <;> simp [pointOfList] at h
  subst h
  rfl

theorem cameraInv_mul_camera (t : K) (ht : t ≠ 0) : cameraInv t * camera t = 1 := by
  ext i j
  fin_cases i <;> fin_cases j <;>
    simp [camera, cameraInv, Matrix.mul_apply, Fin.sum_univ_four, Matrix.one_apply,
      Matrix.vecHead, Matrix.vecTail] <;>
    (field_simp; try ring)

theorem camera_mul_cameraInv (t : K) (ht : t ≠ 0) : camera t * cameraInv t = 1 := by
  ext i j
  fin_cases i <;> fin_cases j <;>
    simp [camera, cameraInv, Matrix.mul_apply, Fin.sum_univ_four, Matrix.one_apply,
      Matrix.vecHead, Matrix.vecTail] <;>
    (field_simp; try ring)

theorem applyTransform_ok_scale (ctx : Ctx K) (m : Mesh K n) (center angle : List K)
    (s : ScaleArg K) (h : (Mesh.applyTransform ctx m center angle s).2 = none) :
    ∃ x y z, scaleComponents s = (x, y, z) ∧ x ≠ 0 ∧ y ≠ 0 ∧ z ≠ 0 ∧
      (Mesh.applyTransform ctx m center angle s).1.scale = m.scale.mulVec3 (x, y, z) ∧
      ((∃ xs, s = ScaleArg.ofList xs) ∨ (∃ t, s = ScaleArg.ofNum t)) := by
  cases hc : m.shift_matrix center with
  | error e => simp [Mesh.applyTransform, hc] at h
  | ok p =>
    obtain ⟨S, m1⟩ := p
    obtain ⟨px, py, pz, -, -, rfl⟩ := shift_ok_elim hc
    cases hr : Mesh.rotation_matrix ctx
        { m with center := m.center.addVec3 (px, py, pz) } angle with
    | error e => simp [Mesh.applyTransform, hc, hr] at h
    | ok q =>
      obtain ⟨R, m2⟩ := q
      obtain ⟨-, a, b, c, -, -, rfl⟩ := rot_ok_elim hr
      cases hs : Mesh.scale_matrix
          { m with center := m.center.addVec3 (px, py, pz),
                   angle := m.angle.addVec3 (a, b, c) } s with
      | error e => simp [Mesh.applyTransform, hc, hr, hs] at h
      | ok w =>
        obtain ⟨C, m3⟩ := w
        obtain ⟨sx, sy, sz, hcomp, hx, hy, hz, -, rfl⟩ := scale_ok_elim hs
        refine ⟨sx, sy, sz, hcomp, hx, hy, hz, ?_, ?_⟩
        · simp [Mesh.applyTransform, hc, hr, hs]
        · rcases s with xs | t | p2
          · exact .inl ⟨xs, rfl⟩
          · exact .inr ⟨t, rfl⟩
          · exact absurd hs (by simp [Mesh.scale_matrix])

theorem applyTransform_error_state (ctx : Ctx K) (m : Mesh K n) (center angle : List K)
    (s : ScaleArg K) (e : PyErr)
    (h : (Mesh.applyTransform ctx m center angle s).2 = some e) :
    (Mesh.applyTransform ctx m center angle s).1.scale = m.scale ∧
    (Mesh.applyTransform ctx m center angle s).1.twoDVertices = m.twoDVertices := by
  cases hc : m.shift_matrix center with
  | error e2 => simp [Mesh.applyTransform, hc]
  | ok p =>
    obtain ⟨S, m1⟩ := p
    obtain ⟨px, py, pz, -, -, rfl⟩ := shift_ok_elim hc
    cases hr : Mesh.rotation_matrix ctx
        { m with center := m.center.addVec3 (px, py, pz) } angle with
    | error e2 => simp [Mesh.applyTransform, hc, hr]
    | ok q =>
      obtain ⟨R, m2⟩ := q
      obtain ⟨-, a, b, c, -, -, rfl⟩ := rot_ok_elim hr
      cases hs : Mesh.scale_matrix
          { m with center := m.center.addVec3 (px, py, pz),
                   angle := m.angle.addVec3 (a, b, c) } s with
      | error e2 => simp [Mesh.applyTransform, hc, hr, hs]
      | ok w =>
        exfalso
        obtain ⟨C, m3⟩ := w
        simp [Mesh.applyTransform, hc, hr, hs] at h

end Lemmas

section Claims

variable {K : Type} [LinearOrderedField K] {n : ℕ}

/-- C9: for every mesh, `reset()` restores `transform_matrix` exactly to
the construction-time backup snapshot and changes nothing else — the
tracked `center`/`angle`/`scale` points, the vertex buffer, the edges,
the visibility flag and the color are untouched; and `applyTransform`
never modifies the backup, so after any sequence of `applyTransform`
calls the backup still holds the construction-time snapshot that
`reset` restores. -/
theorem reset_restores_backup_only (ctx : Ctx K) (m : Mesh K n)
    (center angle : List K) (scale : ScaleArg K) :
    (Mesh.reset m).transform_matrix = m.transform_matrix_backup ∧
    (Mesh.reset m).center = m.center ∧
    (Mesh.reset m).angle = m.angle ∧
    (Mesh.reset m).scale = m.scale ∧
    (Mesh.reset m).vertices = m.vertices ∧
    (Mesh.reset m).edges = m.edges ∧
    (Mesh.reset m).showFlag = m.showFlag ∧
    (Mesh.reset m).color = m.color ∧
    (Mesh.reset m).transform_matrix_backup = m.transform_matrix_backup ∧
    (Mesh.applyTransform ctx m center angle scale).1.transform_matrix_backup
      = m.transform_matrix_backup :=
  ⟨rfl, rfl, rfl, rfl, rfl, rfl, rfl, rfl, rfl,
    (applyTransform_fields ctx m center angle scale).2.2.1⟩

/-- C5: if `applyTransform` fails while building any of the three factor
matrices, `transform_matrix` is left unchanged — the cumulative multiply
is committed only after all three factors are built, so a
partially-applied transform is never committed. -/
theorem applyTransform_error_no_commit (ctx : Ctx K) (m : Mesh K n)
    (center angle : List K) (scale : ScaleArg K) (e : PyErr)
    (h : (Mesh.applyTransform ctx m center angle scale).2 = some e) :
    (Mesh.applyTransform ctx m center angle scale).1.transform_matrix
      = m.transform_matrix := by
  cases hc : m.shift_matrix center with
  | error e2 => simp [Mesh.applyTransform, hc]
  | ok p =>
    obtain ⟨S, m1⟩ := p
    obtain ⟨x, y, z, -, -, rfl⟩ := shift_ok_elim hc
    cases hr : Mesh.rotation_matrix ctx { m with center := m.center.addVec3 (x, y, z) } angle with
    | error e2 => simp [Mesh.applyTransform, hc, hr]
    | ok q =>
      obtain ⟨R, m2⟩ := q
      obtain ⟨-, a, b, c, -, -, rfl⟩ := rot_ok_elim hr
      cases hs : Mesh.scale_matrix
          { m with center := m.center.addVec3 (x, y, z),
                   angle := m.angle.addVec3 (a, b, c) } scale with
      | error e2 => simp [Mesh.applyTransform, hc, hr, hs]
      | ok w =>
        exfalso
        obtain ⟨C, m3⟩ := w
        simp [Mesh.applyTransform, hc, hr, hs] at h

/-- C5 witness: a concrete failing call (a `Point` scale argument) on a
concrete mesh leaves the transform matrix untouched. -/
theorem applyTransform_error_no_commit_witness :
    (Mesh.applyTransform ctxQ meshQ [0, 0, 0] [0, 0, 0]
        (ScaleArg.ofPoint ⟨1, 1, 1⟩)).2 = some (PyErr.typeError ("Invalid scale.")) ∧
    (Mesh.applyTransform ctxQ meshQ [0, 0, 0] [0, 0, 0]
        (ScaleArg.ofPoint ⟨1, 1, 1⟩)).1.transform_matrix = meshQ.transform_matrix := by
  have h : (Mesh.applyTransform ctxQ meshQ [0, 0, 0] [0, 0, 0]
      (ScaleArg.ofPoint ⟨1, 1, 1⟩)).2 = some (PyErr.typeError ("Invalid scale.")) := by
    norm_num [Mesh.applyTransform, Mesh.shift_matrix, Mesh.rotation_matrix,
      Mesh.scale_matrix, ctxQ]
  exact ⟨h, applyTransform_error_no_commit ctxQ meshQ _ _ _ _ h⟩

/-- C2: every successful `applyTransform(center, angle, scale)` call
sets the cumulative transform to
`scale_matrix * rotation_matrix * shift_matrix * old`, where the shift
factor translates by `center`, the rotation factor is the source's
yaw-pitch-roll matrix of `angle`, and the scale factor is the diagonal
matrix of the scale components — left-multiplied on top of the
existing `transform_matrix`. -/
theorem applyTransform_composes (ctx : Ctx K) (m : Mesh K n)
    (cx cy cz ax ay az : K) (s : ScaleArg K)
    (h : (Mesh.applyTransform ctx m [cx, cy, cz] [ax, ay, az] s).2 = none) :
    (Mesh.applyTransform ctx m [cx, cy, cz] [ax, ay, az] s).1.transform_matrix =
      scaleMat (scaleComponents s).1 (scaleComponents s).2.1 (scaleComponents s).2.2 *
        rotMat ctx.sinK ctx.cosK ax ay az * shiftMat cx cy cz * m.transform_matrix := by
  have hc : m.shift_matrix [cx, cy, cz] =
      .ok (shiftMat cx cy cz, { m with center := m.center.addVec3 (cx, cy, cz) }) := rfl
  cases hr : Mesh.rotation_matrix ctx
      { m with center := m.center.addVec3 (cx, cy, cz) } [ax, ay, az] with
  | error e => simp [Mesh.applyTransform, hc, hr] at h
  | ok q =>
    obtain ⟨R, m2⟩ := q
    obtain ⟨-, a, b, c, heq, hR, rfl⟩ := rot_ok_elim hr
    obtain ⟨rfl, rfl, rfl⟩ : a = ax ∧ b = ay ∧ c = az := by
      simpa using heq.symm
    cases hs : Mesh.scale_matrix
        { m with center := m.center.addVec3 (cx, cy, cz),
                 angle := m.angle.addVec3 (a, b, c) } s with
    | error e => simp [Mesh.applyTransform, hc, hr, hs] at h
    | ok w =>
      obtain ⟨C, m3⟩ := w
      obtain ⟨sx, sy, sz, hcomp, -, -, -, hC, rfl⟩ := scale_ok_elim hs
      subst hR hC
      simp [Mesh.applyTransform, hc, hr, hs, hcomp]

/-- C2 witness: a concrete successful call composes the three concrete
factors onto the identity transform. -/
theorem applyTransform_composes_witness :
    (Mesh.applyTransform ctxQ meshQ [1, 2, 3] [0, 0, 0]
        (ScaleArg.ofList [2, 2, 2])).2 = none ∧
    (Mesh.applyTransform ctxQ meshQ [1, 2, 3] [0, 0, 0]
        (ScaleArg.ofList [2, 2, 2])).1.transform_matrix =
      scaleMat 2 2 2 * rotMat ctxQ.sinK ctxQ.cosK 0 0 0 * shiftMat 1 2 3 *
        meshQ.transform_matrix := by
  have h : (Mesh.applyTransform ctxQ meshQ [1, 2, 3] [0, 0, 0]
      (ScaleArg.ofList [2, 2, 2])).2 = none := by
    norm_num [Mesh.applyTransform, Mesh.shift_matrix, Mesh.rotation_matrix,
      Mesh.scale_matrix, ctxQ]
  refine ⟨h, ?_⟩
  have := applyTransform_composes ctxQ meshQ 1 2 3 0 0 0 (ScaleArg.ofList [2, 2, 2]) h
  simpa [scaleComponents] using this

/-- C6: `_rotation_matrix` requires every angle component to lie in
`[-2*pi, 2*pi)`: a component outside the range makes the range assert
fail, and when all components are inside the range no range error is
raised. -/
theorem rotation_matrix_range_check (ctx : Ctx K) (m : Mesh K n) (rot : List K) :
    ((∃ a ∈ rot, ¬(-(2 * ctx.piK) ≤ a ∧ a < 2 * ctx.piK)) →
      Mesh.rotation_matrix ctx m rot = .error .assertionFailed) ∧
    ((∀ a ∈ rot, -(2 * ctx.piK) ≤ a ∧ a < 2 * ctx.piK) →
      Mesh.rotation_matrix ctx m rot ≠ .error .assertionFailed) := by
  constructor
  · rintro ⟨a, ha, hna⟩
    rw [Mesh.rotation_matrix, dif_neg]
    intro hall
    exact hna (hall a ha)
  · intro hall
    rw [Mesh.rotation_matrix, dif_pos hall]
    rcases rot with _ | ⟨x, _ | ⟨y, _ | ⟨z, _ | ⟨w, t⟩⟩⟩⟩ <;> simp

/-- C6 witness: with the concrete context, the out-of-range component
`100` is rejected by the range assert while `[0, 0, 0]` passes it. -/
theorem rotation_matrix_range_check_witness :
    Mesh.rotation_matrix ctxQ meshQ [100] = .error .assertionFailed ∧
    Mesh.rotation_matrix ctxQ meshQ [0, 0, 0] ≠ .error .assertionFailed := by
  constructor
  · exact (rotation_matrix_range_check ctxQ meshQ [100]).1
      ⟨100, by simp, by norm_num [ctxQ]⟩
  · exact (rotation_matrix_range_check ctxQ meshQ [0, 0, 0]).2
      (by intro a ha; simp at ha; subst ha; norm_num [ctxQ])

/-- C10: calling `applyTransform` with a `Point` scale argument — a type
the declared (`Union`-typed) interfaces of `Mesh.__init__` and
`applyTransform` list as accepted — always reaches
`_scale_matrix`'s trailing `else` branch, which accepts only
`tuple`/`list`/`float`/`int` and raises `TypeError("Invalid scale.")`;
`transform_matrix` is left unchanged by such a call.  (The valid
`center`/`angle` hypotheses make the two earlier factors succeed so
that the failure is the scale factor's.) -/
theorem applyTransform_point_scale_raises (ctx : Ctx K) (m : Mesh K n)
    (cx cy cz ax ay az : K) (p : Point K)
    (hall : ∀ a ∈ [ax, ay, az], -(2 * ctx.piK) ≤ a ∧ a < 2 * ctx.piK) :
    (Mesh.applyTransform ctx m [cx, cy, cz] [ax, ay, az] (ScaleArg.ofPoint p)).2
      = some (PyErr.typeError ("Invalid scale.")) ∧
    (Mesh.applyTransform ctx m [cx, cy, cz] [ax, ay, az] (ScaleArg.ofPoint p)).1.transform_matrix
      = m.transform_matrix ∧
    m.scale_matrix (ScaleArg.ofPoint p) = .error (PyErr.typeError ("Invalid scale.")) := by
  have hc : m.shift_matrix [cx, cy, cz] =
      .ok (shiftMat cx cy cz, { m with center := m.center.addVec3 (cx, cy, cz) }) := rfl
  have hr : Mesh.rotation_matrix ctx
      { m with center := m.center.addVec3 (cx, cy, cz) } [ax, ay, az] =
      .ok (rotMat ctx.sinK ctx.cosK ax ay az,
           { m with center := m.center.addVec3 (cx, cy, cz),
                    angle := m.angle.addVec3 (ax, ay, az) }) := by
    rw [Mesh.rotation_matrix, dif_pos hall]
  refine ⟨?_, ?_, rfl⟩ <;> simp [Mesh.applyTransform, hc, hr, Mesh.scale_matrix]

/-- C10 witness: a concrete call with a `Point` scale on a concrete
mesh raises the `TypeError` and leaves the transform untouched. -/
theorem applyTransform_point_scale_raises_witness :
    (Mesh.applyTransform ctxQ meshQ [1, 0, 0] [0, 0, 0]
        (ScaleArg.ofPoint ⟨2, 2, 2⟩)).2 = some (PyErr.typeError ("Invalid scale.")) ∧
    (Mesh.applyTransform ctxQ meshQ [1, 0, 0] [0, 0, 0]
        (ScaleArg.ofPoint ⟨2, 2, 2⟩)).1.transform_matrix = meshQ.transform_matrix ∧
    meshQ.scale_matrix (ScaleArg.ofPoint ⟨2, 2, 2⟩)
      = .error (PyErr.typeError ("Invalid scale.")) :=
  applyTransform_point_scale_raises ctxQ meshQ 1 0 0 0 0 0 ⟨2, 2, 2⟩
    (by intro a ha; simp at ha; subst ha; norm_num [ctxQ])

/-- C3: after every successful `applyTransform` call the stored 2D
projection has been recomputed from the new transform: it equals the
2×N array obtained by mapping the vertices through
`focal * camera⁻¹ * transform_matrix * vertices` and dividing the
first two rows by the third (perspective divide); and the closed-form
`cameraInv` used in the embedding is the genuine two-sided inverse of
the fixed camera matrix whenever `temp ≠ 0` (in the source
`temp = sqrt(2)/2`). -/
theorem to2D_recomputed (ctx : Ctx K) (m : Mesh K n) (center angle : List K)
    (s : ScaleArg K) (ht : ctx.temp ≠ 0)
    (h : (Mesh.applyTransform ctx m center angle s).2 = none) :
    cameraInv ctx.temp * camera ctx.temp = 1 ∧
    camera ctx.temp * cameraInv ctx.temp = 1 ∧
    (Mesh.applyTransform ctx m center angle s).1.twoDVertices =
      Matrix.of (fun i j =>
        ((focal : Matrix (Fin 3) (Fin 4) K) * cameraInv ctx.temp *
            (Mesh.applyTransform ctx m center angle s).1.transform_matrix *
            m.vertices) i.castSucc j /
        ((focal : Matrix (Fin 3) (Fin 4) K) * cameraInv ctx.temp *
            (Mesh.applyTransform ctx m center angle s).1.transform_matrix *
            m.vertices) 2 j) := by
  refine ⟨cameraInv_mul_camera ctx.temp ht, camera_mul_cameraInv ctx.temp ht, ?_⟩
  cases hc : m.shift_matrix center with
  | error e => simp [Mesh.applyTransform, hc] at h
  | ok p =>
    obtain ⟨S, m1⟩ := p
    obtain ⟨px, py, pz, -, -, rfl⟩ := shift_ok_elim hc
    cases hr : Mesh.rotation_matrix ctx
        { m with center := m.center.addVec3 (px, py, pz) } angle with
    | error e => simp [Mesh.applyTransform, hc, hr] at h
    | ok q =>
      obtain ⟨R, m2⟩ := q
      obtain ⟨-, a, b, c, -, -, rfl⟩ := rot_ok_elim hr
      cases hs : Mesh.scale_matrix
          { m with center := m.center.addVec3 (px, py, pz),
                   angle := m.angle.addVec3 (a, b, c) } s with
      | error e => simp [Mesh.applyTransform, hc, hr, hs] at h
      | ok w =>
        obtain ⟨C, m3⟩ := w
        obtain ⟨sx, sy, sz, -, -, -, -, -, rfl⟩ := scale_ok_elim hs
        simp [Mesh.applyTransform, hc, hr, hs, Mesh.to2D]

/-- C3 witness: a concrete successful call on a concrete mesh, with the
non-degenerate concrete camera parameter. -/
theorem to2D_recomputed_witness :
    ctxQ.temp ≠ 0 ∧
    (Mesh.applyTransform ctxQ meshQ [0, 0, 0] [0, 0, 0] (ScaleArg.ofNum 1)).2 = none ∧
    (cameraInv ctxQ.temp * camera ctxQ.temp = 1 ∧
     camera ctxQ.temp * cameraInv ctxQ.temp = 1 ∧
     (Mesh.applyTransform ctxQ meshQ [0, 0, 0] [0, 0, 0] (ScaleArg.ofNum 1)).1.twoDVertices =
       Matrix.of (fun i j =>
         ((focal : Matrix (Fin 3) (Fin 4) ℚ) * cameraInv ctxQ.temp *
             (Mesh.applyTransform ctxQ meshQ [0, 0, 0] [0, 0, 0]
               (ScaleArg.ofNum 1)).1.transform_matrix * meshQ.vertices) i.castSucc j /
         ((focal : Matrix (Fin 3) (Fin 4) ℚ) * cameraInv ctxQ.temp *
             (Mesh.applyTransform ctxQ meshQ [0, 0, 0] [0, 0, 0]
               (ScaleArg.ofNum 1)).1.transform_matrix * meshQ.vertices) 2 j)) := by
  have ht : ctxQ.temp ≠ 0 := by norm_num [ctxQ]
  have h : (Mesh.applyTransform ctxQ meshQ [0, 0, 0] [0, 0, 0] (ScaleArg.ofNum 1)).2
      = none := by
    norm_num [Mesh.applyTransform, Mesh.shift_matrix, Mesh.rotation_matrix,
      Mesh.scale_matrix, ctxQ]
  exact ⟨ht, h, to2D_recomputed ctxQ meshQ [0, 0, 0] [0, 0, 0] (ScaleArg.ofNum 1) ht h⟩

/-- C7: `_scale_matrix` rejects a scale list containing a zero
component, and the zero scalar, with the value assert; consequently the
tracked scale components are never exactly zero — a successful
construction establishes non-zero components and every `applyTransform`
keeps them non-zero (on failure the tracked scale is untouched, on
success it is multiplied by non-zero factors); and for every valid
non-zero three-component scale the produced factor is exactly the
diagonal matrix of those three values with 1 in the bottom-right
corner. -/
theorem scale_matrix_rejects_zero :
    (∀ (m : Mesh K n) (xs : List K), (0 : K) ∈ xs →
        m.scale_matrix (ScaleArg.ofList xs) = .error .assertionFailed) ∧
    (∀ m : Mesh K n, m.scale_matrix (ScaleArg.ofNum 0) = .error .assertionFailed) ∧
    (∀ (ctx : Ctx K) (m : Mesh K n) (center angle : List K) (s : ScaleArg K),
        m.scale.x ≠ 0 → m.scale.y ≠ 0 → m.scale.z ≠ 0 →
        (Mesh.applyTransform ctx m center angle s).1.scale.x ≠ 0 ∧
        (Mesh.applyTransform ctx m center angle s).1.scale.y ≠ 0 ∧
        (Mesh.applyTransform ctx m center angle s).1.scale.z ≠ 0) ∧
    (∀ (ctx : Ctx K) (r c : ℕ) (V : Matrix (Fin r) (Fin c) K)
        (es center angle : List K) (s : ScaleArg K) (col : String)
        (p : (n' : ℕ) × Mesh K n'),
        MeshInit ctx V es center angle s col = .ok p →
        p.2.scale.x ≠ 0 ∧ p.2.scale.y ≠ 0 ∧ p.2.scale.z ≠ 0) ∧
    (∀ (m : Mesh K n) (x y z : K), x ≠ 0 → y ≠ 0 → z ≠ 0 →
        m.scale_matrix (ScaleArg.ofList [x, y, z]) =
          .ok (scaleMat x y z, { m with scale := m.scale.mulVec3 (x, y, z) }) ∧
        scaleMat x y z = Matrix.diagonal ![x, y, z, 1]) := by
  refine ⟨?_, ?_, ?_, ?_, ?_⟩
  · intro m xs hmem
    simp only [Mesh.scale_matrix]
    rw [dif_neg]
    intro hall
    exact hall 0 hmem rfl
  · intro m
    simp [Mesh.scale_matrix]
  · intro ctx m center angle s hx hy hz
    by_cases hnone : (Mesh.applyTransform ctx m center angle s).2 = none
    · obtain ⟨x, y, z, -, hx0, hy0, hz0, hsc, -⟩ :=
        applyTransform_ok_scale ctx m center angle s hnone
      rw [hsc]
      exact ⟨mul_ne_zero hx hx0, mul_ne_zero hy hy0, mul_ne_zero hz hz0⟩
    · obtain ⟨e, he⟩ := Option.ne_none_iff_exists'.mp hnone
      rw [(applyTransform_error_state ctx m center angle s e he).1]
      exact ⟨hx, hy, hz⟩
  · intro ctx r c V es center angle s col p h
    cases hv : verticesSetter V with
    | error e => simp [MeshInit, hv] at h
    | ok q =>
      obtain ⟨n', vs⟩ := q
      cases hce : centerSetter center with
      | error e => simp [MeshInit, hv, hce] at h
      | ok cP =>
        cases han : centerSetter angle with
        | error e => simp [MeshInit, hv, hce, han] at h
        | ok aP =>
          cases hsc : scaleSetter s with
          | error e => simp [MeshInit, hv, hce, han, hsc] at h
          | ok sP =>
            cases happ : Mesh.applyTransform ctx
                { vertices := vs, edges := es, center := cP, angle := aP, scale := sP,
                  transform_matrix := 1, transform_matrix_backup := 1,
                  twoDVertices := 0, showFlag := true, color := col }
                center angle s with
            | mk m1 err =>
              cases err with
              | some e => simp [MeshInit, hv, hce, han, hsc, happ] at h
              | none =>
                have h2 := h
                simp only [MeshInit, hv, hce, han, hsc, happ, Except.ok.injEq] at h2
                subst h2
                obtain ⟨x, y, z, hcomp, hx0, hy0, hz0, hsc1, hshape⟩ :=
                  applyTransform_ok_scale ctx _ center angle s (by rw [happ])
                rw [happ] at hsc1
                have hsP : sP.x ≠ 0 ∧ sP.y ≠ 0 ∧ sP.z ≠ 0 := by
                  rcases hshape with ⟨xs, rfl⟩ | ⟨t, rfl⟩
                  · have hxs := pointOfList_ok_elim
                      (show pointOfList xs = .ok sP by simpa [scaleSetter] using hsc)
                    subst hxs
                    have heq3 : sP.x = x ∧ sP.y = y ∧ sP.z = z := by
                      simpa [scaleComponents, Prod.ext_iff] using hcomp
                    exact ⟨heq3.1 ▸ hx0, heq3.2.1 ▸ hy0, heq3.2.2 ▸ hz0⟩
                  · have hsP1 : sP = ⟨t, t, t⟩ := by
                      simpa [scaleSetter] using hsc.symm
                    have heq3 : t = x ∧ t = y ∧ t = z := by
                      simpa [scaleComponents, Prod.ext_iff] using hcomp
                    rw [hsP1]
                    exact ⟨heq3.1 ▸ hx0, heq3.2.1 ▸ hy0, heq3.2.2 ▸ hz0⟩
                have hm1 : m1.scale = sP.mulVec3 (x, y, z) := hsc1
                refine ⟨?_, ?_, ?_⟩
                · show m1.scale.x ≠ 0
                  rw [hm1]
                  exact mul_ne_zero hsP.1 hx0
                · show m1.scale.y ≠ 0
                  rw [hm1]
                  exact mul_ne_zero hsP.2.1 hy0
                · show m1.scale.z ≠ 0
                  rw [hm1]
                  exact mul_ne_zero hsP.2.2 hz0
  · intro m x y z hx hy hz
    constructor
    · simp only [Mesh.scale_matrix]
      rw [dif_pos (by intro u hu; fin_cases hu <;> assumption)]
    · ext i j
      fin_cases i <;> fin_cases j <;>
        simp [scaleMat, Matrix.diagonal, Matrix.vecHead, Matrix.vecTail]

/-- C7 witness: concrete rejections of zero scales, a concrete
transform preserving the non-zero tracked scale, a concrete successful
construction with non-zero tracked scale (the accessor returns the
zero point on a failed construction, so the non-zero components also
witness that the construction succeeded), and a concrete diagonal
factor. -/
theorem scale_matrix_rejects_zero_witness :
    meshQ.scale_matrix (ScaleArg.ofList [0, 1, 1]) = .error .assertionFailed ∧
    meshQ.scale_matrix (ScaleArg.ofNum 0) = .error .assertionFailed ∧
    ((Mesh.applyTransform ctxQ meshQ [0, 0, 0] [0, 0, 0] (ScaleArg.ofNum 2)).1.scale.x ≠ 0 ∧
     (Mesh.applyTransform ctxQ meshQ [0, 0, 0] [0, 0, 0] (ScaleArg.ofNum 2)).1.scale.y ≠ 0 ∧
     (Mesh.applyTransform ctxQ meshQ [0, 0, 0] [0, 0, 0] (ScaleArg.ofNum 2)).1.scale.z ≠ 0) ∧
    (initResQ.isOk = true ∧ (scaleOf initResQ).x ≠ 0 ∧ (scaleOf initResQ).y ≠ 0 ∧
     (scaleOf initResQ).z ≠ 0) ∧
    (meshQ.scale_matrix (ScaleArg.ofList [2, 3, 4]) =
       .ok (scaleMat 2 3 4, { meshQ with scale := meshQ.scale.mulVec3 (2, 3, 4) }) ∧
     scaleMat (2 : ℚ) 3 4 = Matrix.diagonal ![2, 3, 4, 1]) := by
  have hok : initResQ.isOk = true := by
    norm_num [initResQ, MeshInit, (show verticesSetter vInitQ = .ok ⟨2, vInitQ⟩ from rfl),
      centerSetter, scaleSetter, pointOfList, Mesh.applyTransform, Mesh.shift_matrix,
      Mesh.rotation_matrix, Mesh.scale_matrix, ctxQ, Except.isOk, Except.toBool]
  refine ⟨scale_matrix_rejects_zero.1 meshQ [0, 1, 1] (by simp),
          scale_matrix_rejects_zero.2.1 meshQ,
          scale_matrix_rejects_zero.2.2.1 ctxQ meshQ [0, 0, 0] [0, 0, 0] (ScaleArg.ofNum 2)
            (by norm_num [meshQ]) (by norm_num [meshQ]) (by norm_num [meshQ]),
          ⟨hok, ?_, ?_, ?_⟩,
          scale_matrix_rejects_zero.2.2.2.2 meshQ 2 3 4
            (by norm_num) (by norm_num) (by norm_num)⟩ <;>
    · rcases hres : initResQ with e | p
      · rw [hres] at hok
        simp [Except.isOk, Except.toBool] at hok
      · have h4 := (@scale_matrix_rejects_zero ℚ _ 2).2.2.2.1 ctxQ 4 2 vInitQ []
          [0, 0, 0] [0, 0, 0] (ScaleArg.ofNum 1) "b" p hres
        simp only [scaleOf]
        first
          | exact h4.1
          | exact h4.2.1
          | exact h4.2.2

/-- C4 counterexample: the vertices setter accepts the `4×4` buffer
`vOnesQ`, whose last column is all ones, and stores it unchanged rather
than transposed (its `(0,1)` and `(1,0)` entries differ, so unchanged
and transposed are observably different), refuting "an N×4 buffer whose
last column is all ones is transposed to 4×N" at `N = 4`; and it
accepts the all-zero `4×4` buffer, storing a buffer whose last row is
0, refuting "the all-ones homogeneous last row holds for the stored
buffer in every case the setter accepts". -/
theorem vertices_setter_c4_counterexample :
    (verticesSetter vOnesQ = .ok ⟨4, vOnesQ⟩ ∧ vOnesQ 0 1 ≠ vOnesQ.transpose 0 1) ∧
    (verticesSetter (0 : Matrix (Fin 4) (Fin 4) ℚ)
        = .ok ⟨4, (0 : Matrix (Fin 4) (Fin 4) ℚ)⟩ ∧
     (0 : Matrix (Fin 4) (Fin 4) ℚ) 3 0 ≠ 1) :=
  ⟨⟨rfl, by decide⟩, ⟨rfl, by decide⟩⟩

/-- C4 (amended): a 4×N buffer with an all-ones last row is accepted
unchanged; an N×4 buffer with `N ≠ 4` and an all-ones last column is
transposed to 4×N; and the stored buffer of every accepted input has an
all-ones last row unless the input was a 4×4 matrix (a 4×4 input whose
last row is not all ones is transposed once and stored without any
further check). -/
theorem vertices_setter_normalization :
    (∀ (k : ℕ) (V : Matrix (Fin 4) (Fin k) K), (∀ j, V 3 j = 1) →
        verticesSetter V = .ok ⟨k, V⟩) ∧
    (∀ (k : ℕ) (V : Matrix (Fin k) (Fin 4) K), k ≠ 4 → (∀ i, V i 3 = 1) →
        verticesSetter V = .ok ⟨k, V.transpose⟩) ∧
    (∀ (r c : ℕ) (V : Matrix (Fin r) (Fin c) K) (k : ℕ) (W : Matrix (Fin 4) (Fin k) K),
        verticesSetter V = .ok ⟨k, W⟩ → (∀ j, W 3 j = 1) ∨ (r = 4 ∧ c = 4)) := by
  refine ⟨?_, ?_, ?_⟩
  · intro k V hone
    simp [verticesSetter, verticesStep1, verticesStep2, Except.bind, castRows_rfl, hone]
  · intro k V hk hcol
    simp [verticesSetter, verticesStep1, verticesStep2, Except.bind, castRows_rfl, hk,
      Matrix.transpose_apply, hcol]
  · intro r c V k W h
    rw [verticesSetter] at h
    cases h1 : verticesStep1 V with
    | error e => rw [h1] at h; simp [Except.bind] at h
    | ok p =>
      rw [h1] at h
      obtain ⟨np, Wp⟩ := p
      simp only [Except.bind] at h
      by_cases hone : ∀ j, Wp 3 j = 1
      · rw [verticesStep2, dif_pos hone] at h
        injection h with h2
        injection h2 with ha hb
        subst ha
        left
        rw [← eq_of_heq hb]
        exact hone
      · rw [verticesStep2, dif_neg hone] at h
        by_cases h4 : np = 4
        · right
          subst h4
          by_cases hr : r = 4
          · refine ⟨hr, ?_⟩
            subst hr
            rw [verticesStep1, dif_pos (rfl : (4 : ℕ) = 4)] at h1
            injection h1 with h2
            injection h2 with ha hb
            try exact ha
          · exfalso
            rw [verticesStep1, dif_neg hr] at h1
            by_cases hc : c = 4
            · rw [dif_pos hc] at h1
              injection h1 with h2
              injection h2 with ha hb
              exact hr ha
            · rw [dif_neg hc] at h1
              simp at h1
        · rw [dif_neg h4] at h
          simp at h

/-- C4 witness: instantiations of the three amended normalization
facts — a homogeneous 4×2 buffer accepted unchanged, a 2×4 buffer
transposed, and the all-zero 4×4 buffer landing in the 4×4 escape
clause of the last-row invariant. -/
theorem vertices_setter_normalization_witness :
    verticesSetter vInitQ = .ok ⟨2, vInitQ⟩ ∧
    verticesSetter vRowQ = .ok ⟨2, vRowQ.transpose⟩ ∧
    ((∀ j, (0 : Matrix (Fin 4) (Fin 4) ℚ) 3 j = 1) ∨ ((4 : ℕ) = 4 ∧ (4 : ℕ) = 4)) := by
  have h3 : verticesSetter (0 : Matrix (Fin 4) (Fin 4) ℚ)
      = .ok ⟨4, (0 : Matrix (Fin 4) (Fin 4) ℚ)⟩ := rfl
  exact ⟨vertices_setter_normalization.1 2 vInitQ (by intro j; fin_cases j <;> rfl),
    vertices_setter_normalization.2.1 2 vRowQ (by decide) (by intro i; fin_cases i <;> rfl),
    vertices_setter_normalization.2.2 4 4 0 4 0 h3⟩

/-- C8 (code_bug): `readFBX`'s Geometry branch constructs
`Mesh(vertices, edges, center=[0,0,0], angle=[0,0,0], scale=[])` — but
that construction can never complete: the embedded construction always
fails for an empty scale list (the modelled `Point(*[])` of the scale
setter raises a `TypeError`), and independently of the `Point` model
the source's own `_scale_matrix` raises `ValueError` on the unpack
`x, y, z = []` after `all([])` vacuously passes — so the claim's "this
construction with an empty scale completes without raising" is exactly
what the code refutes, and no Mesh is ever appended. -/
theorem meshInit_empty_scale_fails (ctx : Ctx K) (r c : ℕ)
    (V : Matrix (Fin r) (Fin c) K) (es center angle : List K) (col : String) :
    (∃ e, MeshInit ctx V es center angle (ScaleArg.ofList []) col = .error e) ∧
    (∀ m : Mesh K n, m.scale_matrix (ScaleArg.ofList []) =
      .error (.valueError ("cannot unpack scale"))) := by
  constructor
  · cases hv : verticesSetter V with
    | error e => exact ⟨e, by simp [MeshInit, hv]⟩
    | ok q =>
      obtain ⟨n', vs⟩ := q
      cases hce : centerSetter center with
      | error e => exact ⟨e, by simp [MeshInit, hv, hce]⟩
      | ok cP =>
        cases han : centerSetter angle with
        | error e => exact ⟨e, by simp [MeshInit, hv, hce, han]⟩
        | ok aP =>
          exact ⟨.typeError ("Point expects three components"),
            by simp [MeshInit, hv, hce, han, scaleSetter, pointOfList]⟩
  · intro m
    simp [Mesh.scale_matrix]

/-- C1 (code_bug): on the spec's end-to-end scenario document tree
(`c1Tree`: one Geometry node with vertices `[[0,0,0,1],[1,0,0,1]]` and
edges `[0,1]`, followed by one Model node with `Lcl Translation
(1,0,0)`, `Lcl Rotation (0,0,0)`, `Lcl Scaling (100,100,100)`), the
reader's traversal does not return a one-mesh list with center
`(1,0,0)`: the Geometry branch constructs a Mesh with the empty default
scale, that construction raises, and the whole traversal fails with
that error — for every numeric context, i.e. independent of the values
of `pi`, `sin`, `cos` and the camera parameter. -/
theorem readFBX_c1_scenario_fails (ctx : Ctx ℚ) :
    readFBX ctx c1Tree = .error (.typeError ("Point expects three components")) := rfl

end Claims

end ThreeD
